import Mathlib

/-!
Verification development for the gravpy interferometers module
(src/gravpy/interferometers.py).

The module is embedded shallowly:

* 3-vectors and 3x3 matrices are explicit structures over the reals
  (the source uses small dense numpy arrays);
* NaN entries produced by the masking assignments
  (such as sh[frequencies < self.fs] = np.nan) are modelled as none in
  List (Option Real): a none entry is an undefined (NaN) value, a some
  entry is an ordinary finite value;
* Python runtime failures are modelled by an Except error value:
  unsupportedDetector stands for the AttributeError raised when
  self.noise_spectrum does not exist, typeError for the TypeError raised
  when None reaches arithmetic, valueError for the ValueError raised by
  the truth test of a multi-element numpy array;
* scipy.integrate.quad over a polarisation range is modelled by the
  exact interval integral;
* the spline path of psd (a named configuration) depends on external
  data files, so the fitted spline is an abstract function field.
-/

noncomputable section

open Real

/-- Vector in three dimensions with real entries. -/
@[ext]
structure V3 where
  x : ℝ
  y : ℝ
  z : ℝ

/-- Matrix with three rows, stored row by row as in the numpy source. -/
@[ext]
structure M3 where
  r0 : V3
  r1 : V3
  r2 : V3

/-- Dot product of two 3-vectors. -/
def dotV (a b : V3) : ℝ := a.x * b.x + a.y * b.y + a.z * b.z

/-- First column of a matrix. -/
def col0 (m : M3) : V3 := ⟨m.r0.x, m.r1.x, m.r2.x⟩

/-- Second column of a matrix. -/
def col1 (m : M3) : V3 := ⟨m.r0.y, m.r1.y, m.r2.y⟩

/-- Third column of a matrix. -/
def col2 (m : M3) : V3 := ⟨m.r0.z, m.r1.z, m.r2.z⟩

/-- Matrix product, np.dot on 3x3 arrays. -/
def matMul (A B : M3) : M3 :=
  ⟨⟨dotV A.r0 (col0 B), dotV A.r0 (col1 B), dotV A.r0 (col2 B)⟩,
   ⟨dotV A.r1 (col0 B), dotV A.r1 (col1 B), dotV A.r1 (col2 B)⟩,
   ⟨dotV A.r2 (col0 B), dotV A.r2 (col1 B), dotV A.r2 (col2 B)⟩⟩

/-- Outer product np.outer of two 3-vectors. -/
def outer (a b : V3) : M3 :=
  ⟨⟨a.x * b.x, a.x * b.y, a.x * b.z⟩,
   ⟨a.y * b.x, a.y * b.y, a.y * b.z⟩,
   ⟨a.z * b.x, a.z * b.y, a.z * b.z⟩⟩

/-- Elementwise difference of vectors. -/
def vsub (a b : V3) : V3 := ⟨a.x - b.x, a.y - b.y, a.z - b.z⟩

/-- Elementwise sum of vectors. -/
def vadd (a b : V3) : V3 := ⟨a.x + b.x, a.y + b.y, a.z + b.z⟩

/-- Scalar multiple of a vector. -/
def vsmul (c : ℝ) (a : V3) : V3 := ⟨c * a.x, c * a.y, c * a.z⟩

/-- Elementwise difference of matrices. -/
def msub (A B : M3) : M3 := ⟨vsub A.r0 B.r0, vsub A.r1 B.r1, vsub A.r2 B.r2⟩

/-- Elementwise sum of matrices. -/
def madd (A B : M3) : M3 := ⟨vadd A.r0 B.r0, vadd A.r1 B.r1, vadd A.r2 B.r2⟩

/-- Scalar multiple of a matrix; models both a * M and M / c (as (1/c) * M). -/
def smulM (c : ℝ) (A : M3) : M3 := ⟨vsmul c A.r0, vsmul c A.r1, vsmul c A.r2⟩

/-- Frobenius inner product: the elementwise product of two matrices, summed,
which is how (detector * polarisation).sum() reads in the source. -/
def frob (A B : M3) : ℝ := dotV A.r0 B.r0 + dotV A.r1 B.r1 + dotV A.r2 B.r2

/-- Diagonal matrix with the given diagonal entries. -/
def diag3 (a b c : ℝ) : M3 := ⟨⟨a, 0, 0⟩, ⟨0, b, 0⟩, ⟨0, 0, c⟩⟩

/-- Identity basis e of the unrotated gravitational wave (source lines 213-217). -/
def e3 : M3 := ⟨⟨1, 0, 0⟩, ⟨0, 1, 0⟩, ⟨0, 0, 1⟩⟩

/-- Rotation by phi about the z axis (source lines 12-17). -/
def rot_z (φ : ℝ) : M3 :=
  ⟨⟨Real.cos φ, -Real.sin φ, 0⟩,
   ⟨Real.sin φ, Real.cos φ, 0⟩,
   ⟨0, 0, 1⟩⟩

/-- Rotation by theta about the x axis (source lines 26-31).
The rot_y helper of the source (lines 19-24) reads an undefined variable and
is called from no public path, so it is not embedded. -/
def rot_x (θ : ℝ) : M3 :=
  ⟨⟨1, 0, 0⟩,
   ⟨0, Real.cos θ, -Real.sin θ⟩,
   ⟨0, Real.sin θ, Real.cos θ⟩⟩

/-- Polarisation angle argument of antenna_pattern: either a single angle or a
two-element list [psi1, psi2] requesting the integrated response. -/
inductive PsiArg where
  | single (ψ : ℝ)
  | range (ψ1 ψ2 : ℝ)

/-- Runtime failures of the embedded methods. -/
inductive DetErr where
  | unsupportedDetector
  | typeError
  | valueError

/-- State of an interferometer object: the class attributes of Interferometer
and its subclasses that psd, noise_amplitude, antenna_pattern and skymap read.
The noise_spectrum field is none when the concrete class defines no such
method (the base Interferometer does not); the configuration field holds the
spline fitted to the named configuration's tabulated curve when one is
active (the tabulated data itself lives in external files). -/
structure Ifo where
  f0 : ℝ
  fs : ℝ
  S0 : ℝ
  frequencies : List ℝ
  length : ℝ
  detector_tensor : M3
  noise_spectrum : Option (ℝ → ℝ)
  configuration : Option (ℝ → ℝ)
  obs_time : Option ℝ

/-- Division of the analytic spectrum by obs_time when one is set
(source lines 180-181). -/
def applyObs (d : Ifo) (v : ℝ) : ℝ :=
  match d.obs_time with
  | some T => v / T
  | none => v

/-- Interferometer.psd (source lines 144-184).  Line 158 reads
if not isinstance(frequencies, type(None)): frequencies = self.frequencies
so a supplied array is replaced by the default domain, while a missing
argument stays None and later raises a TypeError (None / self.f0, or
splev(None, tck) on the configuration path).  On the configuration path the
spline is evaluated, entries below fs are set to NaN, and the result is
squared (NaN squared stays NaN).  On the analytic path the spectrum is
evaluated at x = f / f0, divided by obs_time when set, masked below fs, and
multiplied by S0 (NaN times S0 stays NaN).  A missing noise_spectrum method
raises an AttributeError, modelled by unsupportedDetector. -/
def psd (d : Ifo) (frequencies : Option (List ℝ)) : Except DetErr (List (Option ℝ)) :=
  let freqs : Option (List ℝ) :=
    match frequencies with
    | some _ => some d.frequencies
    | none => none
  match d.configuration with
  | some interp =>
    match freqs with
    | none => Except.error DetErr.typeError
    | some fl =>
      Except.ok (fl.map (fun f => if f < d.fs then none else some ((interp f) ^ 2)))
  | none =>
    match freqs with
    | none => Except.error DetErr.typeError
    | some fl =>
      match d.noise_spectrum with
      | none => Except.error DetErr.unsupportedDetector
      | some ns =>
        let sh := fl.map (fun f => ns (f / d.f0))
        let sh2 :=
          match d.obs_time with
          | some T => sh.map (fun v => v / T)
          | none => sh
        Except.ok ((fl.zip sh2).map (fun p => if p.1 < d.fs then none else some (p.2 * d.S0)))

/-- Detector.noise_amplitude (source lines 41-60).  The guard
if not frequencies: frequencies = self.frequencies evaluates the truth
value of the argument: None and an empty array are falsy, a one-element
array is truthy exactly when its entry is nonzero, and an array with more
than one element raises a ValueError.  The returned expression is
np.sqrt(self.frequencies * self.psd(frequencies)): the product uses the
default domain self.frequencies, not the possibly supplied array. -/
def noise_amplitude (d : Ifo) (frequencies : Option (List ℝ)) :
    Except DetErr (List (Option ℝ)) :=
  let freqs? : Except DetErr (List ℝ) :=
    match frequencies with
    | none => Except.ok d.frequencies
    | some [] => Except.ok d.frequencies
    | some [v] => if v = 0 then Except.ok d.frequencies else Except.ok [v]
    | some _ => Except.error DetErr.valueError
  match freqs? with
  | Except.error e => Except.error e
  | Except.ok fl =>
    match psd d (some fl) with
    | Except.error e => Except.error e
    | Except.ok L =>
      Except.ok (List.zipWith (fun f v? => v?.map (fun v => Real.sqrt (f * v)))
        d.frequencies L)

/-- Plus polarisation tensor (source lines 226-229).  The rows alpha and
beta are unpacked from rot_basis BEFORE the rotation by psi about z; the
rotated basis is bound to a local that is never used afterwards, so psi has
no effect on the result. -/
def plus_polarisation (ψ : ℝ) (rot_basis : M3) : M3 :=
  let alpha := rot_basis.r0
  let beta := rot_basis.r1
  let _rot_basis := matMul rot_basis (rot_z ψ)
  msub (outer alpha alpha) (outer beta beta)

/-- Cross polarisation tensor (source lines 230-233).  As in
plus_polarisation the rotation by psi is discarded; the source even
misspells the local as ot_basis. -/
def cross_polarisation (ψ : ℝ) (rot_basis : M3) : M3 :=
  let alpha := rot_basis.r0
  let beta := rot_basis.r1
  let _ot_basis := matMul rot_basis (rot_z ψ)
  madd (outer alpha beta) (outer beta alpha)

/-- Modelled from the spec: the plus polarisation tensor as section 4.3 of
the spec describes it, with the further rotation by psi about z applied to
the basis BEFORE the polarisation vectors alpha and beta are read off.
This is the integrand the claim about polarisation-range integration
asserts; the source instead discards the psi rotation. -/
def plus_polarisation_spec (ψ : ℝ) (rot_basis : M3) : M3 :=
  let rb := matMul rot_basis (rot_z ψ)
  msub (outer rb.r0 rb.r0) (outer rb.r1 rb.r1)

/-- Modelled from the spec: the cross polarisation tensor with the psi
rotation applied before reading the basis vectors. -/
def cross_polarisation_spec (ψ : ℝ) (rot_basis : M3) : M3 :=
  let rb := matMul rot_basis (rot_z ψ)
  madd (outer rb.r0 rb.r1) (outer rb.r1 rb.r0)

/-- Interferometer.antenna_pattern (source lines 186-243).  The detector
tensor is divided by the arm length, the basis is rotated by theta about x
then phi about z (applied to the identity basis e), and the responses are
Frobenius inner products with the polarisation tensors.  For a two-element
psi the responses are scipy quad integrals over the range, modelled by the
exact interval integral.  The returned triple is
(|fplus|, |fcross|, sqrt(fplus^2 + fcross^2)). -/
def antenna_pattern (d : Ifo) (θ φ : ℝ) (ψ : PsiArg) : ℝ × ℝ × ℝ :=
  let detector := smulM (1 / d.length) d.detector_tensor
  let rot_basis := matMul (matMul (rot_x θ) (rot_z φ)) e3
  match ψ with
  | PsiArg.single ψ0 =>
    let fplus := frob detector (plus_polarisation ψ0 rot_basis)
    let fcross := frob detector (cross_polarisation ψ0 rot_basis)
    (|fplus|, |fcross|, Real.sqrt (fplus ^ 2 + fcross ^ 2))
  | PsiArg.range ψ1 ψ2 =>
    let fplus := ∫ ψ0 in ψ1..ψ2, frob detector (plus_polarisation ψ0 rot_basis)
    let fcross := ∫ ψ0 in ψ1..ψ2, frob detector (cross_polarisation ψ0 rot_basis)
    (|fplus|, |fcross|, Real.sqrt (fplus ^ 2 + fcross ^ 2))

/-- np.linspace: n evenly spaced samples from a to b, endpoint included.
For n = 1 the quotient is division by zero, which Lean evaluates to 0, so
the list is [a], matching numpy. -/
def linspace (a b : ℝ) (n : ℕ) : List ℝ :=
  (List.range n).map (fun i : ℕ => a + (b - a) * (i : ℝ) / ((n : ℝ) - 1))

/-- np.logspace: powers of ten of a linspace. -/
def logspace (a b : ℝ) (n : ℕ) : List ℝ :=
  (linspace a b n).map (fun t => (10 : ℝ) ^ t)

/-- Interferometer.skymap (source lines 245-289).  x holds ny samples of the
altitude over [0, pi], y holds nx samples of the azimuth over [0, 2 pi];
meshgrid makes xv[i, j] = x[j] and yv[i, j] = y[i]; the three nx-by-ny
grids hold the antenna_pattern triple at each cell, in the order
(A, B, H) = (plus, cross, combined), and the return order is x, y, A, B, H. -/
def skymap (d : Ifo) (nx ny : ℕ) (ψ : PsiArg) :
    List ℝ × List ℝ × List (List ℝ) × List (List ℝ) × List (List ℝ) :=
  let x := linspace 0 π ny
  let y := linspace 0 (2 * π) nx
  let cells := (List.range nx).map (fun i => (List.range ny).map (fun j =>
    antenna_pattern d (x.getD j 0) (y.getD i 0) ψ))
  (x, y,
   cells.map (fun row => row.map (fun t => t.1)),
   cells.map (fun row => row.map (fun t => t.2.1)),
   cells.map (fun row => row.map (fun t => t.2.2)))

/-- Basis vector xhat of the Interferometer class (source line 127). -/
def xhat : V3 := ⟨1, 0, 0⟩

/-- Basis vector yhat of the Interferometer class (source line 128). -/
def yhat : V3 := ⟨0, 1, 0⟩

/-- The class attributes of the base Interferometer (source lines 121-134):
f0 = 150 Hz, fs = 40 Hz, S0 = 1e-46 / Hz, default domain
np.logspace(1, 5, 4000) Hz, arm length 4 km, detector tensor
length * (outer(xhat, xhat) - outer(yhat, yhat)), no configuration, no
noise_spectrum method, no observation time. -/
def GenericInterferometer : Ifo :=
  { f0 := 150
    fs := 40
    S0 := 1e-46
    frequencies := logspace 1 5 4000
    length := 4
    detector_tensor := smulM 4 (msub (outer xhat xhat) (outer yhat yhat))
    noise_spectrum := none
    configuration := none
    obs_time := none }

/-- The concrete scenario detector of the spec: the base interferometer
constants together with a noise_spectrum that returns 1 everywhere (in
particular at x = 1). -/
def ScenarioIfo : Ifo :=
  { GenericInterferometer with noise_spectrum := some (fun _ => 1) }

/-- Length of the payload of a psd result, 0 on error. -/
def lenOf : Except DetErr (List (Option ℝ)) → ℕ
  | Except.ok L => L.length
  | Except.error _ => 0

namespace TimingArray

/-- Sampling interval dt = 14 days in seconds (source line 296). -/
def dt : ℝ := 14 * 86400

/-- Observation time T = 15 years in seconds, with the astropy Julian year
of 365.25 days (source line 297). -/
def T : ℝ := 15 * 31557600

/-- Timing uncertainty sigma = 100 ns in seconds (source line 298). -/
def sigma : ℝ := 1e-7

/-- Sum of Hellings-Downs coefficients (source line 302). -/
def zeta_sum : ℝ := 4.74

/-- TimingArray.Pn (source lines 304-307); the frequency argument is unused
in the source as well. -/
def Pn (_frequencies : ℝ) : ℝ := 2 * dt * sigma ^ 2

/-- TimingArray.Sn (source lines 309-310). -/
def Sn (frequencies : ℝ) : ℝ := 12 * π ^ 2 * frequencies ^ 2 * Pn frequencies

/-- TimingArray.noise_spectrum (source lines 312-313). -/
def noise_spectrum (frequencies : ℝ) : ℝ :=
  Sn frequencies * zeta_sum ^ (-0.5 : ℝ)

/-- TimingArray.psd (source lines 315-324): the noise spectrum with entries
below 1/T and above 1/dt masked to NaN. -/
def psd (frequencies : List ℝ) : List (Option ℝ) :=
  frequencies.map (fun f =>
    if f < 1 / T ∨ 1 / dt < f then none else some (noise_spectrum f))

end TimingArray

/-- Zipping a list with a mapped copy of itself pairs each element with its
image. -/
theorem zip_self_map {α β : Type} (l : List α) (g : α → β) :
    l.zip (l.map g) = l.map (fun a => (a, g a)) := by
  induction l with
  | nil => rfl
  | cons h t ih => simp [ih]

/-- Closed form of the analytic branch of psd: whatever array is supplied,
the result ranges over the default domain, with entries below fs masked and
the rest equal to S0 times the (possibly obs_time-divided) spectrum value. -/
theorem psd_analytic (d : Ifo) (q : List ℝ) (ns : ℝ → ℝ)
    (hc : d.configuration = none) (hn : d.noise_spectrum = some ns) :
    psd d (some q) = Except.ok (d.frequencies.map (fun f =>
      if f < d.fs then none else some (applyObs d (ns (f / d.f0)) * d.S0))) := by
  unfold psd
  rw [hc, hn]
  cases hobs : d.obs_time with
  | none =>
    simp only [hobs, zip_self_map, List.map_map, applyObs]
    rfl
  | some T =>
    simp only [hobs, List.map_map, zip_self_map, applyObs]
    rfl

/-- C9: calling psd on a detector with no configuration set and no
noise_spectrum override fails with the unsupported-detector error (the
AttributeError raised at self.noise_spectrum in the source). -/
theorem psd_unsupported_detector (d : Ifo) (q : List ℝ)
    (hc : d.configuration = none) (hn : d.noise_spectrum = none) :
    psd d (some q) = Except.error DetErr.unsupportedDetector := by
  unfold psd
  rw [hc, hn]

/-- Witness for psd_unsupported_detector: the base Interferometer has no
configuration and no noise_spectrum, and psd on a concrete query errors. -/
theorem psd_unsupported_detector_witness :
    psd GenericInterferometer (some [(100 : ℝ)]) =
      Except.error DetErr.unsupportedDetector :=
  psd_unsupported_detector GenericInterferometer [(100 : ℝ)] rfl rfl

/-- C1: at the failing input psd([150 Hz]) on the scenario ground
interferometer, the code discards the supplied query (any two supplied
arrays give identical results) and returns an array over the 4000-point
default domain, not the single value S0 at 150 Hz the claim promises. -/
theorem psd_query_ignored :
    psd ScenarioIfo (some [(150 : ℝ)]) = psd ScenarioIfo (some [(999 : ℝ)]) ∧
    lenOf (psd ScenarioIfo (some [(150 : ℝ)])) = 4000 ∧
    lenOf (psd ScenarioIfo (some [(150 : ℝ)])) ≠ [(150 : ℝ)].length := by
  have hfreq : ScenarioIfo.frequencies = logspace 1 5 4000 := by
    simp only [ScenarioIfo, GenericInterferometer]
  have hlen : lenOf (psd ScenarioIfo (some [(150 : ℝ)])) = 4000 := by
    rw [psd_analytic ScenarioIfo _ (fun _ => 1) rfl rfl]
    simp only [lenOf, hfreq, logspace, linspace, List.length_map, List.length_range]
  refine ⟨rfl, hlen, ?_⟩
  rw [hlen]
  simp

/-- C8: at the failing input, noise_amplitude with an explicitly supplied
two-element query raises a ValueError (the truth test of a multi-element
numpy array), instead of computing sqrt(f * psd(f)). -/
theorem noise_amplitude_multi_element_error :
    noise_amplitude ScenarioIfo (some [(100 : ℝ), (200 : ℝ)]) =
      Except.error DetErr.valueError := rfl

/-- C3 counterexample: the TimingArray masks frequencies above 1/dt as well,
so at 1 Hz (far above its lower cutoff 1/T) psd is NaN, not finite. -/
theorem timing_array_upper_band_nan :
    TimingArray.psd [(1 : ℝ)] = [none] ∧ 1 / TimingArray.T ≤ (1 : ℝ) := by
  constructor
  · simp only [TimingArray.psd, List.map]
    rw [if_pos]
    · exact Or.inr (by norm_num [TimingArray.dt])
  · norm_num [TimingArray.T]

/-- C3 amended: on the analytic interferometer path the output has the
length of the detector's own default domain (the supplied query is
discarded), entries below fs are NaN and the others are defined and
non-negative (given non-negative S0 and spectrum and positive obs_time);
TimingArray.psd preserves the query length, masks exactly the entries
outside the band from 1/T to 1/dt, and its defined entries are
non-negative. -/
theorem psd_shape_mask_nonneg :
    (∀ (d : Ifo) (q : List ℝ) (ns : ℝ → ℝ),
      d.configuration = none → d.noise_spectrum = some ns →
      0 ≤ d.S0 → (∀ x, 0 ≤ ns x) → (∀ T, d.obs_time = some T → 0 < T) →
      ∃ L, psd d (some q) = Except.ok L ∧ L.length = d.frequencies.length ∧
        ∀ p ∈ d.frequencies.zip L,
          (p.1 < d.fs → p.2 = none) ∧
          (d.fs ≤ p.1 → ∃ v, p.2 = some v ∧ 0 ≤ v)) ∧
    (∀ q : List ℝ,
      (TimingArray.psd q).length = q.length ∧
      ∀ p ∈ q.zip (TimingArray.psd q),
        ((p.1 < 1 / TimingArray.T ∨ 1 / TimingArray.dt < p.1) → p.2 = none) ∧
        (1 / TimingArray.T ≤ p.1 → p.1 ≤ 1 / TimingArray.dt →
          ∃ v, p.2 = some v ∧ 0 ≤ v)) := by
  constructor
  · intro d q ns hc hn hS hns hT
    have hA : ∀ v, 0 ≤ v → 0 ≤ applyObs d v := by
      intro v hv
      unfold applyObs
      cases hobs : d.obs_time with
      | none => exact hv
      | some t => exact div_nonneg hv (hT t hobs).le
    refine ⟨_, psd_analytic d q ns hc hn, by simp, ?_⟩
    rw [zip_self_map]
    intro p hp
    obtain ⟨f, hf, rfl⟩ := List.mem_map.mp hp
    constructor
    · intro hlt
      simp only [if_pos hlt]
    · intro hge
      rw [if_neg (not_lt.mpr hge)]
      exact ⟨_, rfl, mul_nonneg (hA _ (hns _)) hS⟩
  · intro q
    constructor
    · simp [TimingArray.psd]
    · unfold TimingArray.psd
      rw [zip_self_map]
      intro p hp
      obtain ⟨f, hf, rfl⟩ := List.mem_map.mp hp
      constructor
      · intro h
        simp only [if_pos h]
      · intro h1 h2
        rw [if_neg (by rw [not_or]; exact ⟨not_lt.mpr h1, not_lt.mpr h2⟩)]
        refine ⟨_, rfl, ?_⟩
        unfold TimingArray.noise_spectrum TimingArray.Sn TimingArray.Pn
        have h3 : (0 : ℝ) ≤ TimingArray.zeta_sum ^ (-0.5 : ℝ) :=
          Real.rpow_nonneg (by norm_num [TimingArray.zeta_sum]) _
        have h4 : (0 : ℝ) ≤ 12 * Real.pi ^ 2 * f ^ 2 * (2 * TimingArray.dt * TimingArray.sigma ^ 2) := by
          unfold TimingArray.dt TimingArray.sigma
          positivity
        exact mul_nonneg h4 h3

/-- Witness for psd_shape_mask_nonneg at concrete inputs. -/
theorem psd_shape_mask_nonneg_witness :
    (∃ L, psd ScenarioIfo (some [(150 : ℝ)]) = Except.ok L ∧
      L.length = ScenarioIfo.frequencies.length) ∧
    (TimingArray.psd [(1e-7 : ℝ)]).length = [(1e-7 : ℝ)].length := by
  constructor
  · obtain ⟨L, h1, h2, _⟩ := psd_shape_mask_nonneg.1 ScenarioIfo [(150 : ℝ)]
      (fun _ => 1) rfl rfl
      (by simp only [ScenarioIfo, GenericInterferometer]; norm_num)
      (fun _ => by norm_num)
      (fun t ht => by
        simp only [ScenarioIfo, GenericInterferometer] at ht
        exact Option.noConfusion ht)
    exact ⟨L, h1, h2⟩
  · exact (psd_shape_mask_nonneg.2 [(1e-7 : ℝ)]).1

/-- C6: for every sky direction and polarisation argument, single angle or
range, the third value returned by antenna_pattern is the square root of
the sum of the squares of the first two returned values. -/
theorem antenna_pattern_combined (d : Ifo) (θ φ : ℝ) (ψ : PsiArg) :
    (antenna_pattern d θ φ ψ).2.2 =
      Real.sqrt ((antenna_pattern d θ φ ψ).1 ^ 2 + (antenna_pattern d θ φ ψ).2.1 ^ 2) := by
  cases ψ with
  | single ψ0 =>
    simp only [antenna_pattern]
    rw [sq_abs, sq_abs]
  | range ψ1 ψ2 =>
    simp only [antenna_pattern]
    rw [sq_abs, sq_abs]

/-- C7: the single-angle antenna pattern is periodic in the polarisation
angle with period pi (in the code the equality is exact, because the
polarisation tensors do not depend on psi at all). -/
theorem antenna_pattern_psi_periodic (d : Ifo) (θ φ ψ : ℝ) :
    antenna_pattern d θ φ (PsiArg.single ψ) =
      antenna_pattern d θ φ (PsiArg.single (ψ + π)) := rfl

/-- C10: the single-angle antenna pattern is completely independent of the
polarisation angle: alpha and beta are unpacked from the rotated basis
before the psi rotation, and the psi-rotated basis is discarded. -/
theorem antenna_pattern_psi_independent (d : Ifo) (θ φ ψ1 ψ2 : ℝ) :
    antenna_pattern d θ φ (PsiArg.single ψ1) =
      antenna_pattern d θ φ (PsiArg.single ψ2) := rfl

/-- Helper: the detector tensor of the base Interferometer divided by its
arm length is diag(1, -1, 0). -/
theorem generic_normalized :
    smulM (1 / GenericInterferometer.length) GenericInterferometer.detector_tensor =
      diag3 1 (-1) 0 := by
  simp only [GenericInterferometer]
  ext <;> simp [smulM, vsmul, msub, vsub, outer, xhat, yhat, diag3]

/-- Helper: at theta = 0 and phi = 0 the rotated basis is the identity. -/
theorem rot_basis_face_on : matMul (matMul (rot_x 0) (rot_z 0)) e3 = e3 := by
  ext <;> simp [matMul, rot_x, rot_z, e3, dotV, col0, col1, col2]

/-- Helper: the plus response of the diag(1, -1, 0) detector against the
identity basis is 2 for every polarisation angle. -/
theorem frob_plus_face (ψ0 : ℝ) :
    frob (diag3 1 (-1) 0) (plus_polarisation ψ0 e3) = 2 := by
  simp [frob, dotV, plus_polarisation, e3, outer, msub, vsub, diag3]
  norm_num

/-- Helper: the cross response of the diag(1, -1, 0) detector against the
identity basis is 0 for every polarisation angle. -/
theorem frob_cross_face (ψ0 : ℝ) :
    frob (diag3 1 (-1) 0) (cross_polarisation ψ0 e3) = 0 := by
  simp [frob, dotV, cross_polarisation, e3, outer, madd, vadd, diag3]

/-- Helper: full evaluation of the face-on single-angle antenna pattern of
the base Interferometer: the returned triple is (2, 0, 2). -/
theorem antenna_pattern_face_on_generic :
    antenna_pattern GenericInterferometer 0 0 (PsiArg.single 0) = (2, 0, 2) := by
  simp only [antenna_pattern, generic_normalized, rot_basis_face_on,
    frob_plus_face, frob_cross_face]
  rw [show ((2 : ℝ) ^ 2 + 0 ^ 2) = 2 ^ 2 by norm_num,
    Real.sqrt_sq (by norm_num : (0 : ℝ) ≤ 2)]
  norm_num

/-- C2 counterexample: for the base Interferometer, whose normalized
detector tensor is exactly diag(1, -1, 0), the face-on plus response is 2,
not 1 as the claim states. -/
theorem antenna_pattern_face_on_counterexample :
    smulM (1 / GenericInterferometer.length) GenericInterferometer.detector_tensor =
      diag3 1 (-1) 0 ∧
    (antenna_pattern GenericInterferometer 0 0 (PsiArg.single 0)).1 ≠ 1 := by
  refine ⟨generic_normalized, ?_⟩
  rw [antenna_pattern_face_on_generic]
  norm_num

/-- C2 amended: antenna_pattern on a detector whose normalized tensor is
diag(1, -1, 0), observed face-on with psi = 0, returns Fplus = 2 and
Fcross = 0 (and combined response 2): the Frobenius product of
diag(1, -1, 0) with itself is 2, there is no factor 1/2. -/
theorem antenna_pattern_face_on (d : Ifo)
    (h : smulM (1 / d.length) d.detector_tensor = diag3 1 (-1) 0) :
    antenna_pattern d 0 0 (PsiArg.single 0) = (2, 0, 2) := by
  simp only [antenna_pattern, h, rot_basis_face_on, frob_plus_face, frob_cross_face]
  rw [show ((2 : ℝ) ^ 2 + 0 ^ 2) = 2 ^ 2 by norm_num,
    Real.sqrt_sq (by norm_num : (0 : ℝ) ≤ 2)]
  norm_num

/-- Witness for antenna_pattern_face_on at the base Interferometer. -/
theorem antenna_pattern_face_on_witness :
    antenna_pattern GenericInterferometer 0 0 (PsiArg.single 0) = (2, 0, 2) :=
  antenna_pattern_face_on GenericInterferometer generic_normalized

/-- C5: evaluation of the code at the failing input.  For the base
Interferometer face-on with the polarisation range [0, pi/2] the integrand
is constant (the psi rotation is discarded inside the polarisation
helpers), so the integrated responses are 2 * (pi/2) = pi and 0, and the
returned triple is (pi, 0, pi). -/
theorem antenna_pattern_range_psi_ignored :
    antenna_pattern GenericInterferometer 0 0 (PsiArg.range 0 (π / 2)) = (π, 0, π) := by
  simp only [antenna_pattern, generic_normalized, rot_basis_face_on,
    frob_plus_face, frob_cross_face]
  rw [intervalIntegral.integral_const, intervalIntegral.integral_const]
  rw [show ((π : ℝ) / 2 - 0) • (2 : ℝ) = π by rw [smul_eq_mul]; ring,
    show ((π : ℝ) / 2 - 0) • (0 : ℝ) = 0 by simp]
  rw [abs_of_nonneg Real.pi_pos.le, abs_zero,
    show (π : ℝ) ^ 2 + 0 ^ 2 = π ^ 2 by ring, Real.sqrt_sq Real.pi_pos.le]

/-- Supporting fact for C5: the integrand the claim describes, with the psi
rotation applied to the basis as in plus_polarisation_spec, integrates to 0
over [0, pi/2] for the same face-on geometry, not to pi as the code
returns. -/
theorem spec_range_integrand_vanishes :
    (∫ ψ0 in (0 : ℝ)..(π / 2), frob (diag3 1 (-1) 0) (plus_polarisation_spec ψ0 e3)) = 0 := by
  have h : ∀ ψ0 : ℝ, frob (diag3 1 (-1) 0) (plus_polarisation_spec ψ0 e3) =
      2 * Real.cos (2 * ψ0) := by
    intro ψ0
    have hs := Real.sin_sq_add_cos_sq ψ0
    simp [frob, dotV, plus_polarisation_spec, e3, outer, msub, vsub, diag3,
      matMul, rot_z, col0, col1, col2, Real.cos_two_mul]
    nlinarith [hs]
  simp only [h]
  rw [intervalIntegral.integral_const_mul]
  have h3 : (2 : ℝ) * ∫ x in (0 : ℝ)..(π / 2), Real.cos (2 * x) =
      ∫ x in (2 * 0 : ℝ)..(2 * (π / 2)), Real.cos x :=
    intervalIntegral.mul_integral_comp_mul_left 2
  rw [integral_cos,
    show (2 : ℝ) * (π / 2) = π by ring, show (2 : ℝ) * 0 = 0 by ring] at h3
  simp only [Real.sin_pi, Real.sin_zero, sub_zero] at h3
  have h4 : (∫ x in (0 : ℝ)..(π / 2), Real.cos (2 * x)) = 0 := by linarith
  rw [h4, mul_zero]

/-- Helper: indexing a mapped range with a default value. -/
theorem getD_map_range {α : Type} (n : ℕ) (f : ℕ → α) (hd : α) (i : ℕ) (h : i < n) :
    ((List.range n).map f).getD i hd = f i := by
  rw [List.getD_eq_getElem?_getD, List.getElem?_map, List.getElem?_range h]
  rfl

/-- Helper: the three antenna_pattern components are non-negative for every
input, since the first two are absolute values and the third a square root. -/
theorem antenna_pattern_nonneg (d : Ifo) (θ φ : ℝ) (ψ : PsiArg) :
    0 ≤ (antenna_pattern d θ φ ψ).1 ∧ 0 ≤ (antenna_pattern d θ φ ψ).2.1 ∧
      0 ≤ (antenna_pattern d θ φ ψ).2.2 := by
  cases ψ with
  | single ψ0 => exact ⟨abs_nonneg _, abs_nonneg _, Real.sqrt_nonneg _⟩
  | range ψ1 ψ2 => exact ⟨abs_nonneg _, abs_nonneg _, Real.sqrt_nonneg _⟩

/-- Helper: closed form of the plus grid of skymap. -/
theorem skymap_grid_plus (d : Ifo) (nx ny : ℕ) (ψ : PsiArg) :
    (skymap d nx ny ψ).2.2.1 =
      (List.range nx).map (fun i0 => (List.range ny).map (fun j0 =>
        (antenna_pattern d ((linspace 0 π ny).getD j0 0)
          ((linspace 0 (2 * π) nx).getD i0 0) ψ).1)) := by
  simp only [skymap, List.map_map, Function.comp_def]

/-- Helper: closed form of the cross grid of skymap. -/
theorem skymap_grid_cross (d : Ifo) (nx ny : ℕ) (ψ : PsiArg) :
    (skymap d nx ny ψ).2.2.2.1 =
      (List.range nx).map (fun i0 => (List.range ny).map (fun j0 =>
        (antenna_pattern d ((linspace 0 π ny).getD j0 0)
          ((linspace 0 (2 * π) nx).getD i0 0) ψ).2.1)) := by
  simp only [skymap, List.map_map, Function.comp_def]

/-- Helper: closed form of the combined grid of skymap. -/
theorem skymap_grid_combined (d : Ifo) (nx ny : ℕ) (ψ : PsiArg) :
    (skymap d nx ny ψ).2.2.2.2 =
      (List.range nx).map (fun i0 => (List.range ny).map (fun j0 =>
        (antenna_pattern d ((linspace 0 π ny).getD j0 0)
          ((linspace 0 (2 * π) nx).getD i0 0) ψ).2.2)) := by
  simp only [skymap, List.map_map, Function.comp_def]

/-- Helper: the grid cell [i, j] of the three skymap grids is the
antenna_pattern triple at theta = x[j], phi = y[i]. -/
theorem skymap_cell (d : Ifo) (nx ny : ℕ) (ψ : PsiArg) (i j : ℕ)
    (hi : i < nx) (hj : j < ny) :
    (((skymap d nx ny ψ).2.2.1.getD i []).getD j 0,
     ((skymap d nx ny ψ).2.2.2.1.getD i []).getD j 0,
     ((skymap d nx ny ψ).2.2.2.2.getD i []).getD j 0) =
      antenna_pattern d ((linspace 0 π ny).getD j 0)
        ((linspace 0 (2 * π) nx).getD i 0) ψ := by
  rw [skymap_grid_plus, skymap_grid_cross, skymap_grid_combined,
    getD_map_range nx _ _ i hi, getD_map_range nx _ _ i hi,
    getD_map_range nx _ _ i hi, getD_map_range ny _ _ j hj,
    getD_map_range ny _ _ j hj, getD_map_range ny _ _ j hj]

/-- C4: skymap returns x_axis = ny evenly spaced altitude samples over
[0, pi], y_axis = nx evenly spaced azimuth samples over [0, 2 pi], three
grids of nx rows of ny entries whose cell [i, j] holds the three
antenna_pattern outputs at theta = x_axis[j], phi = y_axis[i], and every
grid value is non-negative (and defined). -/
theorem skymap_axes_shape_nonneg (d : Ifo) (nx ny : ℕ) (ψ : PsiArg) :
    (skymap d nx ny ψ).1 = linspace 0 π ny ∧
    (skymap d nx ny ψ).1.length = ny ∧
    (skymap d nx ny ψ).2.1 = linspace 0 (2 * π) nx ∧
    (skymap d nx ny ψ).2.1.length = nx ∧
    ((skymap d nx ny ψ).2.2.1.length = nx ∧
      ∀ row ∈ (skymap d nx ny ψ).2.2.1, row.length = ny) ∧
    ((skymap d nx ny ψ).2.2.2.1.length = nx ∧
      ∀ row ∈ (skymap d nx ny ψ).2.2.2.1, row.length = ny) ∧
    ((skymap d nx ny ψ).2.2.2.2.length = nx ∧
      ∀ row ∈ (skymap d nx ny ψ).2.2.2.2, row.length = ny) ∧
    (∀ i j : ℕ, i < nx → j < ny →
      (((skymap d nx ny ψ).2.2.1.getD i []).getD j 0,
       ((skymap d nx ny ψ).2.2.2.1.getD i []).getD j 0,
       ((skymap d nx ny ψ).2.2.2.2.getD i []).getD j 0) =
        antenna_pattern d ((linspace 0 π ny).getD j 0)
          ((linspace 0 (2 * π) nx).getD i 0) ψ) ∧
    (∀ row ∈ (skymap d nx ny ψ).2.2.1, ∀ v ∈ row, 0 ≤ v) ∧
    (∀ row ∈ (skymap d nx ny ψ).2.2.2.1, ∀ v ∈ row, 0 ≤ v) ∧
    (∀ row ∈ (skymap d nx ny ψ).2.2.2.2, ∀ v ∈ row, 0 ≤ v) := by
  refine ⟨rfl, ?_, rfl, ?_, ⟨?_, ?_⟩, ⟨?_, ?_⟩, ⟨?_, ?_⟩, ?_, ?_, ?_, ?_⟩
  · show (linspace 0 π ny).length = ny
    simp only [linspace, List.length_map, List.length_range]
  · show (linspace 0 (2 * π) nx).length = nx
    simp only [linspace, List.length_map, List.length_range]
  · rw [skymap_grid_plus]
    simp only [List.length_map, List.length_range]
  · rw [skymap_grid_plus]
    intro row hrow
    obtain ⟨i0, -, rfl⟩ := List.mem_map.mp hrow
    simp only [List.length_map, List.length_range]
  · rw [skymap_grid_cross]
    simp only [List.length_map, List.length_range]
  · rw [skymap_grid_cross]
    intro row hrow
    obtain ⟨i0, -, rfl⟩ := List.mem_map.mp hrow
    simp only [List.length_map, List.length_range]
  · rw [skymap_grid_combined]
    simp only [List.length_map, List.length_range]
  · rw [skymap_grid_combined]
    intro row hrow
    obtain ⟨i0, -, rfl⟩ := List.mem_map.mp hrow
    simp only [List.length_map, List.length_range]
  · exact fun i j hi hj => skymap_cell d nx ny ψ i j hi hj
  · rw [skymap_grid_plus]
    intro row hrow
    obtain ⟨i0, -, rfl⟩ := List.mem_map.mp hrow
    intro v hv
    obtain ⟨j0, -, rfl⟩ := List.mem_map.mp hv
    exact (antenna_pattern_nonneg d _ _ ψ).1
  · rw [skymap_grid_cross]
    intro row hrow
    obtain ⟨i0, -, rfl⟩ := List.mem_map.mp hrow
    intro v hv
    obtain ⟨j0, -, rfl⟩ := List.mem_map.mp hv
    exact (antenna_pattern_nonneg d _ _ ψ).2.1
  · rw [skymap_grid_combined]
    intro row hrow
    obtain ⟨i0, -, rfl⟩ := List.mem_map.mp hrow
    intro v hv
    obtain ⟨j0, -, rfl⟩ := List.mem_map.mp hv
    exact (antenna_pattern_nonneg d _ _ ψ).2.2

/-- Witness for skymap_axes_shape_nonneg: the cell equation at the concrete
call skymap 1 1 with a single polarisation angle, cell [0, 0]. -/
theorem skymap_axes_shape_nonneg_witness :
    (((skymap GenericInterferometer 1 1 (PsiArg.single 0)).2.2.1.getD 0 []).getD 0 0,
     ((skymap GenericInterferometer 1 1 (PsiArg.single 0)).2.2.2.1.getD 0 []).getD 0 0,
     ((skymap GenericInterferometer 1 1 (PsiArg.single 0)).2.2.2.2.getD 0 []).getD 0 0) =
      antenna_pattern GenericInterferometer ((linspace 0 π 1).getD 0 0)
        ((linspace 0 (2 * π) 1).getD 0 0) (PsiArg.single 0) := by
  obtain ⟨-, -, -, -, -, -, -, hcell, -, -, -⟩ :=
    skymap_axes_shape_nonneg GenericInterferometer 1 1 (PsiArg.single 0)
  exact hcell 0 0 (by norm_num) (by norm_num)
